import Mathlib

/-!
# Feedback derivation of `feedback/feedback.go`

A shallow embedding of the package `feedback`: the two capitalization patterns
`StartUpper` and `AllUpper`, the record `Feedback`, and the three functions
`GetFeedback`, `getMatchFeedback` and `getDictionaryMatchFeedback`.

Modelling conventions.
* A Go `string` is a Lean `String`, that is, valid UTF-8; `len(s)` is the number of
  bytes of the UTF-8 encoding, `String.utf8ByteSize`.  The regular expressions read
  the token rune by rune, which is the list of characters `String.data`.
* Go `int` values are `Int`; none of the comparisons of this file can overflow.
* A `[]string` is a `List String`; the `nil` slice and the empty slice are both `[]`.
* The functions are embedded twice.  `GetFeedback`, `getMatchFeedback` and
  `getDictionaryMatchFeedback` take match records, a `[]*match.Match` of valid
  pointers being a `List Match`.  `GetFeedbackPtr` and its helpers take pointers that
  may be nil and return an error where a statement of the Go code fails at run time.
-/

namespace Zxcvbn

/-! ## Regular expressions of the shape used by the package -/

/-- A bracket expression: a list of inclusive rune ranges, possibly negated (`[^...]`). -/
structure CharClass where
  negated : Bool
  ranges : List (Char × Char)

/-- Whether the rune `c` lies in one of the ranges `lo-hi`. -/
def inRanges (ranges : List (Char × Char)) (c : Char) : Bool :=
  ranges.any (fun r => decide (r.1.toNat ≤ c.toNat) && decide (c.toNat ≤ r.2.toNat))

/-- Whether the bracket expression accepts the rune `c`. -/
def CharClass.accepts (k : CharClass) (c : Char) : Bool :=
  if k.negated then !(inRanges k.ranges c) else inRanges k.ranges c

/-- One piece of a pattern: a bracket expression taken once, or repeated with `+`. -/
inductive Piece where
  | one (k : CharClass)
  | plus (k : CharClass)

/-- An anchored pattern `^p1 p2 ... pn$`, given by its pieces. -/
abbrev Regexp := List Piece

/-- Matching of the pieces against the whole remaining input, with backtracking
on `+`; the empty list of pieces is the final `$`. -/
def matchPieces : List Piece → List Char → Bool
  | [], cs => cs.isEmpty
  | Piece.one _ :: _, [] => false
  | Piece.one k :: ps, c :: cs => k.accepts c && matchPieces ps cs
  | Piece.plus _ :: _, [] => false
  | Piece.plus k :: ps, c :: cs =>
      k.accepts c && (matchPieces ps cs || matchPieces (Piece.plus k :: ps) cs)

/-- The method `(*Regexp).MatchString` for a pattern anchored by `^` and `$`. -/
def MatchString (re : Regexp) (s : String) : Bool :=
  matchPieces re s.data

/-- The bracket expression `[A-Z]`. -/
def clsAZ : CharClass := ⟨false, [('A', 'Z')]⟩

/-- The bracket expression `[^A-Z]`. -/
def clsNotAZ : CharClass := ⟨true, [('A', 'Z')]⟩

/-- The bracket expression `[^a-z\d]`, where `\d` is `0-9`. -/
def clsNotLowerDigit : CharClass := ⟨true, [('a', 'z'), ('0', '9')]⟩

/-- `StartUpper = regexp.MustCompile("^[A-Z][^A-Z]+$")`. -/
def StartUpper : Regexp := [Piece.one clsAZ, Piece.plus clsNotAZ]

/-- `AllUpper = regexp.MustCompile("^[^a-z\\d]+$")`. -/
def AllUpper : Regexp := [Piece.plus clsNotLowerDigit]

/-! ## Data model -/

/-- Modelled from the spec: the record `match.Match` is declared in the package
`match`, outside `feedback.go`; these are the fields that `feedback.go` reads, with
the types of section 3 of the specification (`guesses` is a number, taken here as a
rational, which covers every finite value of the estimate). -/
structure Match where
  Pattern : String
  Token : String
  DictionaryName : String
  Rank : Int
  Guesses : ℚ
  Reversed : Bool
  L33t : Bool
  Turns : Int
  RepeatCount : Int
  RegexName : String

/-- The record `Feedback`: the feedback for a weak password. -/
structure Feedback where
  Warning : String
  Suggestions : List String
deriving DecidableEq

/-- The zero value `Feedback{}`. -/
def Feedback.zero : Feedback := ⟨"", []⟩

/-- Go `len` of a string: its number of bytes. -/
def len (s : String) : Nat := s.utf8ByteSize

/-! ## The functions of `feedback.go` -/

/-- The function `getDictionaryMatchFeedback`. -/
def getDictionaryMatchFeedback (m : Match) (isSoleMatch : Bool) : Feedback :=
  let warning : String :=
    if m.DictionaryName = "passwords" then
      if isSoleMatch && !m.L33t && !m.Reversed then
        if m.Rank ≤ 10 then "This is a top-10 common password."
        else if m.Rank ≤ 100 then "This is a top-100 common password."
        else "This is a very common password."
      else if m.Guesses ≤ 10000 then "This is similar to a commonly used password."
      else ""
    else if m.DictionaryName = "english_wikipedia" then
      if isSoleMatch then "A word by itself is easy to guess." else ""
    else if m.DictionaryName = "surnames" ∨ m.DictionaryName = "male_names"
        ∨ m.DictionaryName = "female_name" then
      if isSoleMatch then "Names and surnames by themselves are easy to guess."
      else "Common names and surnames are easy to guess."
    else ""
  let suggestions : List String := []
  let word := m.Token
  let suggestions :=
    if MatchString StartUpper word then
      suggestions ++ ["Capitalization doesn't help very much."]
    else if MatchString AllUpper word then
      suggestions ++ ["All-uppercase is almost as easy to guess as all-lowercase."]
    else suggestions
  let suggestions :=
    if m.Reversed && decide (len word ≥ 4) then
      suggestions ++ ["Reversed words aren't much harder to guess."]
    else suggestions
  let suggestions :=
    if m.L33t then
      suggestions ++ ["Predictable substitutions like '@' instead of 'a' don't help very much."]
    else suggestions
  { Warning := warning, Suggestions := suggestions }

/-- The function `getMatchFeedback`: the `switch` on `match.Pattern`.  A `regex` match
whose name is not `recent_year` leaves the `switch` (Go cases do not fall through)
and reaches the final `return Feedback{}`. -/
def getMatchFeedback (m : Match) (isSoleMatch : Bool) : Feedback :=
  if m.Pattern = "dictionary" then
    getDictionaryMatchFeedback m isSoleMatch
  else if m.Pattern = "spatial" then
    let warning :=
      if m.Turns = 1 then "Straight rows of keys are easy to guess."
      else "Short keyboard patterns are easy to guess."
    { Warning := warning, Suggestions := ["Use a longer keyboard pattern with more turns."] }
  else if m.Pattern = "repeat" then
    let warning :=
      if m.RepeatCount = 1 then "Repeats like \"aaa\" are easy to guess."
      else "Repeats like \"abcabcabc\" are only slightly harder to guess than \"abc\"."
    { Warning := warning, Suggestions := ["Avoid repeated words and characters."] }
  else if m.Pattern = "sequence" then
    { Warning := "Sequences like \"abc\" or \"6543\" are easy to guess.",
      Suggestions := ["Avoid sequences."] }
  else if m.Pattern = "regex" then
    if m.RegexName = "recent_year" then
      { Warning := "Recent years are easy to guess.",
        Suggestions := ["Avoid recent years.", "Avoid years that are associated with you."] }
    else Feedback.zero
  else if m.Pattern = "date" then
    { Warning := "Dates are often easy to guess.",
      Suggestions := ["Avoid dates and years that are associated with you."] }
  else Feedback.zero

/-- The loop `for _, match := range sequence[1:]` of `GetFeedback`, with the current
value of `longestMatch` as accumulator. -/
def longestLoop (longestMatch : Match) : List Match → Match
  | [] => longestMatch
  | m :: rest =>
      if len m.Token > len longestMatch.Token then longestLoop m rest
      else longestLoop longestMatch rest

/-- The function `GetFeedback`. -/
def GetFeedback (score : Int) (sequence : List Match) : Feedback :=
  match sequence with
  | [] =>
      { Warning := "",
        Suggestions := ["Use a few words, avoid common phrases.",
          "No need for symbols, digits, or uppercase letters."] }
  | first :: rest =>
      if score > 2 then Feedback.zero
      else
        let longestMatch := longestLoop first rest
        let feedback := getMatchFeedback longestMatch (decide (sequence.length = 1))
        let extraFeedback := "Add another word or two. Uncommon words are better."
        { feedback with Suggestions := feedback.Suggestions ++ [extraFeedback] }

/-- The match that `GetFeedback` selects on a sequence: `sequence[0]` followed by the
loop over `sequence[1:]`; `none` on the empty sequence, where nothing is selected. -/
def selectedMatch : List Match → Option Match
  | [] => none
  | first :: rest => some (longestLoop first rest)

/-! ## The capitalization shapes, in the words of the specification -/

/-- An uppercase letter `A-Z`. -/
def isUpperAZ (c : Char) : Bool := decide ('A'.toNat ≤ c.toNat ∧ c.toNat ≤ 'Z'.toNat)

/-- A lowercase letter `a-z`. -/
def isLowerAZ (c : Char) : Bool := decide ('a'.toNat ≤ c.toNat ∧ c.toNat ≤ 'z'.toNat)

/-- A digit `0-9`. -/
def isDigit09 (c : Char) : Bool := decide ('0'.toNat ≤ c.toNat ∧ c.toNat ≤ '9'.toNat)

/-- The Start-Upper shape: the first character is an uppercase letter, there is at
least one further character, and none of the further characters is an uppercase
letter. -/
def StartUpperShape (s : String) : Prop :=
  ∃ c rest, s.data = c :: rest ∧ isUpperAZ c = true ∧ rest ≠ [] ∧
    ∀ x ∈ rest, isUpperAZ x = false

/-- The All-Upper shape: the string is non-empty and has no lowercase letter and no
digit. -/
def AllUpperShape (s : String) : Prop :=
  s.data ≠ [] ∧ ∀ x ∈ s.data, isLowerAZ x = false ∧ isDigit09 x = false

/-! ## Sample matches -/

/-- A dictionary match on the token `password` from the list `passwords`, rank 5. -/
def passwordMatch : Match :=
  { Pattern := "dictionary", Token := "password", DictionaryName := "passwords",
    Rank := 5, Guesses := 5, Reversed := false, L33t := false,
    Turns := 0, RepeatCount := 0, RegexName := "" }

/-- A dictionary match on the token `PASSWORD` from the list `english_wikipedia`. -/
def wikipediaMatch : Match :=
  { passwordMatch with Token := "PASSWORD", DictionaryName := "english_wikipedia" }

/-- A spatial match on the token `qwerty` with three turns. -/
def spatialMatch : Match :=
  { Pattern := "spatial", Token := "qwerty", DictionaryName := "",
    Rank := 0, Guesses := 0, Reversed := false, L33t := false,
    Turns := 3, RepeatCount := 0, RegexName := "" }

/-- A dictionary match from the list `female_names`. -/
def femaleNamesMatch : Match :=
  { passwordMatch with Token := "mary", DictionaryName := "female_names", Rank := 7 }

/-- A dictionary match whose list is called `female_name`, without the final `s`. -/
def femaleNameMatch : Match :=
  { passwordMatch with Token := "mary", DictionaryName := "female_name", Rank := 7 }

/-- A dictionary match on the token `A!`, which has both capitalization shapes. -/
def bangMatch : Match :=
  { passwordMatch with Token := "A!" }

/-- A reversed dictionary match on the token `Reversed`. -/
def reversedMatch : Match :=
  { passwordMatch with Token := "Reversed", DictionaryName := "english_wikipedia", Reversed := true }

/-- A reversed dictionary match on the token `éé`: two characters, four bytes. -/
def accentMatch : Match :=
  { passwordMatch with Token := "éé", DictionaryName := "english_wikipedia", Reversed := true }

/-- A dictionary match on the token `abc`: three characters, three bytes. -/
def abcMatch : Match :=
  { passwordMatch with Token := "abc", DictionaryName := "english_wikipedia" }

/-- A reversed leet dictionary match on the token `P@ssw0rd`. -/
def leetMatch : Match :=
  { passwordMatch with Token := "P@ssw0rd", Reversed := true, L33t := true }

/-- A repeat match on the token `aaa`. -/
def repeatMatch : Match :=
  { spatialMatch with Pattern := "repeat", Token := "aaa", Turns := 0, RepeatCount := 1 }

/-- A sequence match on the token `abcdef`. -/
def sequenceMatch : Match :=
  { spatialMatch with Pattern := "sequence", Token := "abcdef", Turns := 0 }

/-- A date match on the token `1991-12-31`. -/
def dateMatch : Match :=
  { spatialMatch with Pattern := "date", Token := "1991-12-31", Turns := 0 }

/-- A regex match of the pattern `recent_year` on the token `2019`. -/
def recentYearMatch : Match :=
  { spatialMatch with Pattern := "regex", Token := "2019", Turns := 0, RegexName := "recent_year" }

/-- A regex match of a pattern with another name. -/
def otherRegexMatch : Match :=
  { spatialMatch with Pattern := "regex", Token := "2019", Turns := 0, RegexName := "alphanumeric" }

/-- A match of a pattern kind that `getMatchFeedback` has no case for. -/
def bruteforceMatch : Match :=
  { spatialMatch with Pattern := "bruteforce", Token := "x9$", Turns := 0 }

/-! ## The run of `GetFeedback` on pointers, with its run-time failures -/

/-- The run-time failures that a statement of `feedback.go` can raise. -/
inductive Fault where
  | indexOutOfRange
  | sliceBoundsOutOfRange
  | nilDereference
deriving DecidableEq

/-- A value of type `*match.Match`: `none` is the nil pointer. -/
abbrev MatchPtr := Option Match

/-- A field read `p.F` through a pointer: it fails on the nil pointer. -/
def deref (p : MatchPtr) : Except Fault Match :=
  match p with
  | some m => Except.ok m
  | none => Except.error Fault.nilDereference

/-- The index expression `sequence[0]`: it fails when `len(sequence)` is 0. -/
def indexZero (sequence : List MatchPtr) : Except Fault MatchPtr :=
  match sequence with
  | [] => Except.error Fault.indexOutOfRange
  | p :: _ => Except.ok p

/-- The slice expression `sequence[1:]`: it fails when `1 > len(sequence)`. -/
def sliceFromOne (sequence : List MatchPtr) : Except Fault (List MatchPtr) :=
  if 1 ≤ sequence.length then Except.ok (sequence.drop 1)
  else Except.error Fault.sliceBoundsOutOfRange

/-- The function `getDictionaryMatchFeedback` on a pointer: its first statement reads
`match.DictionaryName`, and every later read is through the same pointer. -/
def getDictionaryMatchFeedbackPtr (p : MatchPtr) (isSoleMatch : Bool) :
    Except Fault Feedback :=
  match deref p with
  | Except.error e => Except.error e
  | Except.ok m => Except.ok (getDictionaryMatchFeedback m isSoleMatch)

/-- The function `getMatchFeedback` on a pointer: `switch match.Pattern` reads through
the pointer first; the case `dictionary` passes the same pointer on. -/
def getMatchFeedbackPtr (p : MatchPtr) (isSoleMatch : Bool) : Except Fault Feedback :=
  match deref p with
  | Except.error e => Except.error e
  | Except.ok m =>
      if m.Pattern = "dictionary" then getDictionaryMatchFeedbackPtr p isSoleMatch
      else Except.ok (getMatchFeedback m isSoleMatch)

/-- The loop of `GetFeedback` on pointers: the test reads `match.Token` and then
`longestMatch.Token`. -/
def longestLoopPtr (longestMatch : MatchPtr) : List MatchPtr → Except Fault MatchPtr
  | [] => Except.ok longestMatch
  | p :: rest =>
      match deref p with
      | Except.error e => Except.error e
      | Except.ok m =>
          match deref longestMatch with
          | Except.error e => Except.error e
          | Except.ok l =>
              if len m.Token > len l.Token then longestLoopPtr p rest
              else longestLoopPtr longestMatch rest

/-- The function `GetFeedback` on a `[]*match.Match`, statement by statement, with
the failure of an index, of a slice expression or of a field read as an error. -/
def GetFeedbackPtr (score : Int) (sequence : List MatchPtr) : Except Fault Feedback :=
  if sequence.length = 0 then
    Except.ok { Warning := "",
                Suggestions := ["Use a few words, avoid common phrases.",
                  "No need for symbols, digits, or uppercase letters."] }
  else if score > 2 then Except.ok Feedback.zero
  else
    match indexZero sequence with
    | Except.error e => Except.error e
    | Except.ok first =>
        match sliceFromOne sequence with
        | Except.error e => Except.error e
        | Except.ok rest =>
            match longestLoopPtr first rest with
            | Except.error e => Except.error e
            | Except.ok longestMatch =>
                match getMatchFeedbackPtr longestMatch (decide (sequence.length = 1)) with
                | Except.error e => Except.error e
                | Except.ok feedback =>
                    let extraFeedback := "Add another word or two. Uncommon words are better."
                    Except.ok
                      { feedback with Suggestions := feedback.Suggestions ++ [extraFeedback] }

/-! ## The Start-Upper check of the design notes -/

/-- The direct character scan in the words of the design notes: the first character
is an uppercase letter and at least one following character is not. -/
def startUpperScan (s : String) : Bool :=
  match s.data with
  | [] => false
  | c :: rest => isUpperAZ c && rest.any (fun x => !isUpperAZ x)

/-! ## The top-level selector -/

/-- C1: on the empty sequence `GetFeedback` returns, for every score, the empty
warning and the two fixed suggestions, in that order. -/
theorem GetFeedback_empty_sequence (score : Int) :
    GetFeedback score [] =
      { Warning := "",
        Suggestions := ["Use a few words, avoid common phrases.",
          "No need for symbols, digits, or uppercase letters."] } := by
  rfl

/-- C2: for a score above 2 and a non-empty sequence `GetFeedback` returns the zero
value, empty warning and no suggestions; the generic suggestion is not appended. -/
theorem GetFeedback_strong_score (score : Int) (sequence : List Match)
    (hscore : score > 2) (hne : sequence ≠ []) :
    GetFeedback score sequence = { Warning := "", Suggestions := [] } ∧
      "Add another word or two. Uncommon words are better." ∉
        (GetFeedback score sequence).Suggestions := by
  cases sequence with
  | nil => exact absurd rfl hne
  | cons first rest =>
    have h : GetFeedback score (first :: rest) = { Warning := "", Suggestions := [] } := by
      simp [GetFeedback, hscore, Feedback.zero]
    rw [h]
    exact ⟨rfl, by simp⟩

/-- Witness of C2: score 3 on a one-match sequence. -/
theorem GetFeedback_strong_score_witness :
    GetFeedback 3 [passwordMatch] = { Warning := "", Suggestions := [] } ∧
      "Add another word or two. Uncommon words are better." ∉
        (GetFeedback 3 [passwordMatch]).Suggestions :=
  GetFeedback_strong_score 3 [passwordMatch] (by decide) (by simp)

/-- C3: for a score of at most 2 and a non-empty sequence, `GetFeedback` returns the
result of `getMatchFeedback` on the selected match and on the flag "the sequence has
length 1", with the same warning and with the generic suggestion appended as the one
new, last element (also when the classifier gave no suggestion). -/
theorem GetFeedback_weak_score (score : Int) (sequence : List Match)
    (hscore : score ≤ 2) (hne : sequence ≠ []) :
    ∃ longestMatch, selectedMatch sequence = some longestMatch ∧
      (GetFeedback score sequence).Warning =
        (getMatchFeedback longestMatch (decide (sequence.length = 1))).Warning ∧
      (GetFeedback score sequence).Suggestions =
        (getMatchFeedback longestMatch (decide (sequence.length = 1))).Suggestions ++
          ["Add another word or two. Uncommon words are better."] ∧
      (GetFeedback score sequence).Suggestions.length =
        (getMatchFeedback longestMatch (decide (sequence.length = 1))).Suggestions.length + 1 ∧
      (GetFeedback score sequence).Suggestions.getLast? =
        some "Add another word or two. Uncommon words are better." := by
  cases sequence with
  | nil => exact absurd rfl hne
  | cons first rest =>
    have hs : ¬ score > 2 := not_lt.mpr hscore
    refine ⟨longestLoop first rest, rfl, ?_, ?_, ?_, ?_⟩ <;>
      simp [GetFeedback, hs]

/-- Witness of C3: score 1 on a two-match sequence. -/
theorem GetFeedback_weak_score_witness :
    ∃ longestMatch, selectedMatch [spatialMatch, passwordMatch] = some longestMatch ∧
      (GetFeedback 1 [spatialMatch, passwordMatch]).Warning =
        (getMatchFeedback longestMatch
          (decide ([spatialMatch, passwordMatch].length = 1))).Warning ∧
      (GetFeedback 1 [spatialMatch, passwordMatch]).Suggestions =
        (getMatchFeedback longestMatch
          (decide ([spatialMatch, passwordMatch].length = 1))).Suggestions ++
          ["Add another word or two. Uncommon words are better."] ∧
      (GetFeedback 1 [spatialMatch, passwordMatch]).Suggestions.length =
        (getMatchFeedback longestMatch
          (decide ([spatialMatch, passwordMatch].length = 1))).Suggestions.length + 1 ∧
      (GetFeedback 1 [spatialMatch, passwordMatch]).Suggestions.getLast? =
        some "Add another word or two. Uncommon words are better." :=
  GetFeedback_weak_score 1 [spatialMatch, passwordMatch] (by decide) (by simp)

/-- The loop returns either its accumulator or an element of the scanned list that
is strictly longer than the accumulator and than everything scanned before it; in
both cases nothing scanned is longer than the result. -/
theorem longestLoop_spec (rest : List Match) :
    ∀ acc : Match,
      len acc.Token ≤ len (longestLoop acc rest).Token ∧
      (∀ x ∈ rest, len x.Token ≤ len (longestLoop acc rest).Token) ∧
      (longestLoop acc rest = acc ∨
        ∃ pre post, rest = pre ++ longestLoop acc rest :: post ∧
          len acc.Token < len (longestLoop acc rest).Token ∧
          ∀ x ∈ pre, len x.Token < len (longestLoop acc rest).Token) := by
  induction rest with
  | nil =>
    intro acc
    simp [longestLoop]
  | cons m rest ih =>
    intro acc
    by_cases hgt : len m.Token > len acc.Token
    · have hstep : longestLoop acc (m :: rest) = longestLoop m rest := by
        simp [longestLoop, hgt]
      rw [hstep]
      obtain ⟨hacc, hall, hsel⟩ := ih m
      refine ⟨by omega, ?_, Or.inr ?_⟩
      · intro x hx
        rcases List.mem_cons.mp hx with rfl | hx
        · exact hacc
        · exact hall x hx
      · rcases hsel with heq | ⟨pre, post, hsplit, hlt, hpre⟩
        · refine ⟨[], rest, ?_, ?_, ?_⟩
          · simp [heq]
          · rw [heq]; exact hgt
          · intro x hx; simp at hx
        · refine ⟨m :: pre, post, ?_, by omega, ?_⟩
          · rw [List.cons_append, ← hsplit]
          · intro x hx
            rcases List.mem_cons.mp hx with rfl | hx
            · exact hlt
            · exact hpre x hx
    · have hstep : longestLoop acc (m :: rest) = longestLoop acc rest := by
        simp [longestLoop, hgt]
      rw [hstep]
      obtain ⟨hacc, hall, hsel⟩ := ih acc
      refine ⟨hacc, ?_, ?_⟩
      · intro x hx
        rcases List.mem_cons.mp hx with rfl | hx
        · omega
        · exact hall x hx
      · rcases hsel with heq | ⟨pre, post, hsplit, hlt, hpre⟩
        · exact Or.inl heq
        · refine Or.inr ⟨m :: pre, post, ?_, hlt, ?_⟩
          · rw [List.cons_append, ← hsplit]
          · intro x hx
            rcases List.mem_cons.mp hx with rfl | hx
            · omega
            · exact hpre x hx

/-- C4: on a non-empty sequence the match selected by `GetFeedback` is the first
match of maximal token length: the sequence splits as `pre ++ selected :: post`, no
match of the sequence has a longer token than the selected one, and every match of
`pre` has a strictly shorter token. -/
theorem selectedMatch_first_longest (sequence : List Match) (hne : sequence ≠ []) :
    ∃ pre selected post,
      selectedMatch sequence = some selected ∧
      sequence = pre ++ selected :: post ∧
      (∀ x ∈ sequence, len x.Token ≤ len selected.Token) ∧
      (∀ x ∈ pre, len x.Token < len selected.Token) ∧
      (∀ score : Int, score ≤ 2 →
        GetFeedback score sequence =
          { Warning := (getMatchFeedback selected (decide (sequence.length = 1))).Warning,
            Suggestions :=
              (getMatchFeedback selected (decide (sequence.length = 1))).Suggestions ++
                ["Add another word or two. Uncommon words are better."] }) := by
  cases sequence with
  | nil => exact absurd rfl hne
  | cons first rest =>
    have hdrive : ∀ score : Int, score ≤ 2 →
        GetFeedback score (first :: rest) =
          { Warning := (getMatchFeedback (longestLoop first rest)
              (decide ((first :: rest).length = 1))).Warning,
            Suggestions :=
              (getMatchFeedback (longestLoop first rest)
                (decide ((first :: rest).length = 1))).Suggestions ++
                ["Add another word or two. Uncommon words are better."] } := by
      intro score hscore
      have hs : ¬ score > 2 := not_lt.mpr hscore
      simp [GetFeedback, hs]
    obtain ⟨hacc, hall, hsel⟩ := longestLoop_spec rest first
    have hmax : ∀ x ∈ first :: rest, len x.Token ≤ len (longestLoop first rest).Token := by
      intro x hx
      rcases List.mem_cons.mp hx with rfl | hx
      · exact hacc
      · exact hall x hx
    rcases hsel with heq | ⟨pre, post, hsplit, hlt, hpre⟩
    · refine ⟨[], longestLoop first rest, rest, rfl, ?_, hmax, ?_, hdrive⟩
      · simp [heq]
      · intro x hx; simp at hx
    · refine ⟨first :: pre, longestLoop first rest, post, rfl, ?_, hmax, ?_, hdrive⟩
      · rw [List.cons_append, ← hsplit]
      · intro x hx
        rcases List.mem_cons.mp hx with rfl | hx
        · exact hlt
        · exact hpre x hx

/-- Witness of C4: of two matches with tokens of equal length the first is selected. -/
theorem selectedMatch_first_longest_witness :
    ∃ pre selected post,
      selectedMatch [femaleNamesMatch, femaleNameMatch] = some selected ∧
      [femaleNamesMatch, femaleNameMatch] = pre ++ selected :: post ∧
      (∀ x ∈ [femaleNamesMatch, femaleNameMatch], len x.Token ≤ len selected.Token) ∧
      (∀ x ∈ pre, len x.Token < len selected.Token) ∧
      (∀ score : Int, score ≤ 2 →
        GetFeedback score [femaleNamesMatch, femaleNameMatch] =
          { Warning := (getMatchFeedback selected
              (decide ([femaleNamesMatch, femaleNameMatch].length = 1))).Warning,
            Suggestions :=
              (getMatchFeedback selected
                (decide ([femaleNamesMatch, femaleNameMatch].length = 1))).Suggestions ++
                ["Add another word or two. Uncommon words are better."] }) :=
  selectedMatch_first_longest [femaleNamesMatch, femaleNameMatch] (by simp)

/-! ## The dictionary sub-classifier: warnings -/

/-- C5: for the dictionary `passwords`, the warning is by rank tier (at most 10, at
most 100, above 100) when the match is the sole one and is neither leet nor
reversed, whatever `Guesses` is; otherwise it is the "similar" warning when
`Guesses` is at most 10000 and the empty string when `Guesses` is above 10000. -/
theorem passwords_warning (m : Match) (isSoleMatch : Bool)
    (hname : m.DictionaryName = "passwords") :
    ((isSoleMatch = true ∧ m.L33t = false ∧ m.Reversed = false) →
      (m.Rank ≤ 10 →
        (getDictionaryMatchFeedback m isSoleMatch).Warning =
          "This is a top-10 common password.") ∧
      (10 < m.Rank → m.Rank ≤ 100 →
        (getDictionaryMatchFeedback m isSoleMatch).Warning =
          "This is a top-100 common password.") ∧
      (100 < m.Rank →
        (getDictionaryMatchFeedback m isSoleMatch).Warning =
          "This is a very common password.")) ∧
    (¬ (isSoleMatch = true ∧ m.L33t = false ∧ m.Reversed = false) →
      (m.Guesses ≤ 10000 →
        (getDictionaryMatchFeedback m isSoleMatch).Warning =
          "This is similar to a commonly used password.") ∧
      (10000 < m.Guesses →
        (getDictionaryMatchFeedback m isSoleMatch).Warning = "")) := by
  constructor
  · rintro ⟨hsole, hleet, hrev⟩
    refine ⟨?_, ?_, ?_⟩
    · intro h10
      simp [getDictionaryMatchFeedback, hname, hsole, hleet, hrev, h10]
    · intro h10 h100
      simp [getDictionaryMatchFeedback, hname, hsole, hleet, hrev, not_le.mpr h10, h100]
    · intro h100
      have h10 : ¬ m.Rank ≤ 10 := by omega
      simp [getDictionaryMatchFeedback, hname, hsole, hleet, hrev, not_le.mpr h100, h10]
  · intro hnot
    have hcond : (isSoleMatch && !m.L33t && !m.Reversed) = false := by
      cases isSoleMatch <;> cases hl : m.L33t <;> cases hr : m.Reversed <;> simp_all
    refine ⟨?_, ?_⟩
    · intro hg
      simp [getDictionaryMatchFeedback, hname, hcond, hg]
    · intro hg
      simp [getDictionaryMatchFeedback, hname, hcond, not_le.mpr hg]

/-- Witness of C5: the match `password` of rank 5 and 5 guesses in the list
`passwords`, as the sole match and as one match among several. -/
theorem passwords_warning_witness :
    (getDictionaryMatchFeedback passwordMatch true).Warning =
      "This is a top-10 common password." ∧
    (getDictionaryMatchFeedback passwordMatch false).Warning =
      "This is similar to a commonly used password." :=
  ⟨((passwords_warning passwordMatch true rfl).1 ⟨rfl, rfl, rfl⟩).1 (by decide),
    ((passwords_warning passwordMatch false rfl).2 (by decide)).1 (by decide)⟩

/-- For the dictionaries `surnames` and `male_names` the warning is the one of the
name dictionaries: "by themselves" for a sole match, "common names" otherwise. -/
theorem surnames_male_names_warning (m : Match)
    (hname : m.DictionaryName = "surnames" ∨ m.DictionaryName = "male_names") :
    (getDictionaryMatchFeedback m true).Warning =
      "Names and surnames by themselves are easy to guess." ∧
    (getDictionaryMatchFeedback m false).Warning =
      "Common names and surnames are easy to guess." := by
  rcases hname with h | h <;> simp [getDictionaryMatchFeedback, h]

/-- A dictionary name that is none of the names tested by the `switch` of
`getDictionaryMatchFeedback` gets the empty warning. -/
theorem untested_dictionary_warning (m : Match) (isSoleMatch : Bool)
    (h1 : m.DictionaryName ≠ "passwords") (h2 : m.DictionaryName ≠ "english_wikipedia")
    (h3 : m.DictionaryName ≠ "surnames") (h4 : m.DictionaryName ≠ "male_names")
    (h5 : m.DictionaryName ≠ "female_name") :
    (getDictionaryMatchFeedback m isSoleMatch).Warning = "" := by
  simp [getDictionaryMatchFeedback, h1, h2, h3, h4, h5]

/-- C6, at the dictionary name `female_names`: the code tests the name `female_name`,
so a match from `female_names` gets the empty warning, sole match or not. -/
theorem female_names_warning_empty :
    femaleNamesMatch.DictionaryName = "female_names" ∧
    (getDictionaryMatchFeedback femaleNamesMatch true).Warning = "" ∧
    (getDictionaryMatchFeedback femaleNamesMatch false).Warning = "" := by
  decide

/-- C7, at the dictionary name `female_name`: this name is none of the five names of
the table, and the code gives it the two warnings of the name dictionaries. -/
theorem female_name_warning_nonempty :
    femaleNameMatch.DictionaryName = "female_name" ∧
    (getDictionaryMatchFeedback femaleNameMatch true).Warning =
      "Names and surnames by themselves are easy to guess." ∧
    (getDictionaryMatchFeedback femaleNameMatch false).Warning =
      "Common names and surnames are easy to guess." := by
  decide

/-- C8: for the dictionary `english_wikipedia` the warning is "A word by itself is
easy to guess." for a sole match and empty otherwise, whatever the rank, the guesses
and the flags are; hence `GetFeedback` gives this warning on a one-match sequence
of such a dictionary match when the score is at most 2. -/
theorem english_wikipedia_warning (m : Match) (hname : m.DictionaryName = "english_wikipedia") :
    (getDictionaryMatchFeedback m true).Warning = "A word by itself is easy to guess." ∧
    (getDictionaryMatchFeedback m false).Warning = "" ∧
    (∀ score : Int, score ≤ 2 → m.Pattern = "dictionary" →
      (GetFeedback score [m]).Warning = "A word by itself is easy to guess.") := by
  refine ⟨?_, ?_, ?_⟩
  · simp [getDictionaryMatchFeedback, hname]
  · simp [getDictionaryMatchFeedback, hname]
  · intro score hscore hpat
    have hs : ¬ score > 2 := not_lt.mpr hscore
    simp [GetFeedback, hs, longestLoop, getMatchFeedback, hpat, getDictionaryMatchFeedback,
      hname]

/-- Witness of C8: the match `PASSWORD` of the list `english_wikipedia`, alone in its
sequence, at score 1. -/
theorem english_wikipedia_warning_witness :
    (getDictionaryMatchFeedback wikipediaMatch true).Warning =
      "A word by itself is easy to guess." ∧
    (getDictionaryMatchFeedback wikipediaMatch false).Warning = "" ∧
    (GetFeedback 1 [wikipediaMatch]).Warning = "A word by itself is easy to guess." :=
  ⟨(english_wikipedia_warning wikipediaMatch rfl).1,
    (english_wikipedia_warning wikipediaMatch rfl).2.1,
    (english_wikipedia_warning wikipediaMatch rfl).2.2 1 (by decide) rfl⟩

/-! ## The dictionary sub-classifier: capitalization suggestions -/

/-- A pattern made of one repeated bracket expression matches the non-empty inputs
whose runes are all accepted. -/
theorem matchPieces_plus (k : CharClass) (cs : List Char) :
    matchPieces [Piece.plus k] cs = (!cs.isEmpty && cs.all k.accepts) := by
  induction cs with
  | nil => rfl
  | cons c cs ih =>
    cases cs with
    | nil => simp [matchPieces]
    | cons d ds =>
      rw [matchPieces, ih]
      simp [matchPieces]

/-- The bracket expression `[A-Z]` accepts the uppercase letters. -/
theorem clsAZ_accepts (c : Char) : clsAZ.accepts c = isUpperAZ c := by
  simp [CharClass.accepts, clsAZ, inRanges, isUpperAZ]

/-- The bracket expression `[^A-Z]` accepts the runes that are no uppercase letter. -/
theorem clsNotAZ_accepts (c : Char) : clsNotAZ.accepts c = !isUpperAZ c := by
  simp [CharClass.accepts, clsNotAZ, inRanges, isUpperAZ]

/-- The bracket expression `[^a-z\d]` accepts the runes that are neither a lowercase
letter nor a digit. -/
theorem clsNotLowerDigit_accepts (c : Char) :
    clsNotLowerDigit.accepts c = (!isLowerAZ c && !isDigit09 c) := by
  simp [CharClass.accepts, clsNotLowerDigit, inRanges, isLowerAZ, isDigit09]

/-- The pattern `StartUpper` matches exactly the strings of the Start-Upper shape. -/
theorem MatchString_StartUpper (s : String) :
    MatchString StartUpper s = true ↔ StartUpperShape s := by
  unfold MatchString StartUpper StartUpperShape
  cases hs : s.data with
  | nil => simp [matchPieces]
  | cons c rest =>
    rw [matchPieces, matchPieces_plus, clsAZ_accepts]
    constructor
    · intro h
      simp only [Bool.and_eq_true, Bool.not_eq_true', List.all_eq_true] at h
      refine ⟨c, rest, rfl, h.1, ?_, ?_⟩
      · intro hnil
        rw [hnil] at h
        simp at h
      · intro x hx
        have := h.2.2 x hx
        rw [clsNotAZ_accepts] at this
        simpa using this
    · rintro ⟨c', rest', heq, hc, hne, hall⟩
      obtain ⟨rfl, rfl⟩ := List.cons.inj heq
      simp only [Bool.and_eq_true, Bool.not_eq_true', List.all_eq_true]
      refine ⟨hc, ?_, ?_⟩
      · cases rest with
        | nil => exact absurd rfl hne
        | cons _ _ => rfl
      · intro x hx
        rw [clsNotAZ_accepts, hall x hx]
        rfl

/-- The pattern `AllUpper` matches exactly the strings of the All-Upper shape. -/
theorem MatchString_AllUpper (s : String) :
    MatchString AllUpper s = true ↔ AllUpperShape s := by
  unfold MatchString AllUpper AllUpperShape
  rw [matchPieces_plus]
  simp only [Bool.and_eq_true, Bool.not_eq_true', List.all_eq_true, List.isEmpty_eq_false,
    clsNotLowerDigit_accepts]

/-- Where the two capitalization suggestions come from: the first is present exactly
when `StartUpper` matches the token, the second exactly when `StartUpper` does not
match and `AllUpper` does. -/
theorem capitalization_suggestions (m : Match) (isSoleMatch : Bool) :
    ("Capitalization doesn't help very much." ∈
        (getDictionaryMatchFeedback m isSoleMatch).Suggestions ↔
      MatchString StartUpper m.Token = true) ∧
    ("All-uppercase is almost as easy to guess as all-lowercase." ∈
        (getDictionaryMatchFeedback m isSoleMatch).Suggestions ↔
      (MatchString StartUpper m.Token = false ∧ MatchString AllUpper m.Token = true)) := by
  cases h1 : MatchString StartUpper m.Token <;> cases h2 : MatchString AllUpper m.Token <;>
    cases h3 : (m.Reversed && decide (len m.Token ≥ 4)) <;> cases h4 : m.L33t <;>
    simp [getDictionaryMatchFeedback, h1, h2, h3, h4]

/-- C9: the suggestions of `getDictionaryMatchFeedback` contain "Capitalization
doesn't help very much." if and only if the token has the Start-Upper shape: its
first character is an uppercase letter `A-Z`, it has at least one further character,
and none of the further characters is an uppercase letter `A-Z`. -/
theorem capitalization_iff_startUpperShape (m : Match) (isSoleMatch : Bool) :
    "Capitalization doesn't help very much." ∈
        (getDictionaryMatchFeedback m isSoleMatch).Suggestions ↔
      ∃ c rest, m.Token.data = c :: rest ∧ isUpperAZ c = true ∧ rest ≠ [] ∧
        ∀ x ∈ rest, isUpperAZ x = false := by
  rw [(capitalization_suggestions m isSoleMatch).1, MatchString_StartUpper]
  rfl

/-- C10: the suggestions of `getDictionaryMatchFeedback` contain "All-uppercase is
almost as easy to guess as all-lowercase." if and only if the token does not have the
Start-Upper shape, is non-empty, and has no lowercase letter `a-z` and no digit `0-9`;
the two capitalization suggestions are never both present; and a token `A!`, which has
both shapes, gets the capitalization suggestion and not the all-uppercase one. -/
theorem allUppercase_iff_allUpperShape (m : Match) (isSoleMatch : Bool) :
    ("All-uppercase is almost as easy to guess as all-lowercase." ∈
        (getDictionaryMatchFeedback m isSoleMatch).Suggestions ↔
      (¬ StartUpperShape m.Token ∧ m.Token.data ≠ [] ∧
        ∀ x ∈ m.Token.data, isLowerAZ x = false ∧ isDigit09 x = false)) ∧
    ¬ ("Capitalization doesn't help very much." ∈
          (getDictionaryMatchFeedback m isSoleMatch).Suggestions ∧
        "All-uppercase is almost as easy to guess as all-lowercase." ∈
          (getDictionaryMatchFeedback m isSoleMatch).Suggestions) ∧
    (m.Token = "A!" →
      StartUpperShape m.Token ∧ AllUpperShape m.Token ∧
      "Capitalization doesn't help very much." ∈
        (getDictionaryMatchFeedback m isSoleMatch).Suggestions ∧
      "All-uppercase is almost as easy to guess as all-lowercase." ∉
        (getDictionaryMatchFeedback m isSoleMatch).Suggestions) := by
  obtain ⟨hcap, hall⟩ := capitalization_suggestions m isSoleMatch
  refine ⟨?_, ?_, ?_⟩
  · rw [hall, ← MatchString_StartUpper, MatchString_AllUpper]
    simp [AllUpperShape]
  · rw [hcap, hall]
    rintro ⟨h1, h2, _⟩
    rw [h1] at h2
    exact Bool.noConfusion h2
  · intro htok
    have hstart : MatchString StartUpper m.Token = true := by rw [htok]; decide
    have hupper : MatchString AllUpper m.Token = true := by rw [htok]; decide
    refine ⟨(MatchString_StartUpper _).mp hstart, (MatchString_AllUpper _).mp hupper,
      hcap.mpr hstart, ?_⟩
    rw [hall]
    rintro ⟨h, _⟩
    rw [hstart] at h
    exact Bool.noConfusion h

/-- Witness of C10: the dictionary match on the token `A!`. -/
theorem allUppercase_iff_allUpperShape_witness :
    StartUpperShape bangMatch.Token ∧ AllUpperShape bangMatch.Token ∧
      "Capitalization doesn't help very much." ∈
        (getDictionaryMatchFeedback bangMatch true).Suggestions ∧
      "All-uppercase is almost as easy to guess as all-lowercase." ∉
        (getDictionaryMatchFeedback bangMatch true).Suggestions :=
  (allUppercase_iff_allUpperShape bangMatch true).2.2 rfl

/-! ## The dictionary sub-classifier: the whole suggestion list -/

/-- The suggestion list of `getDictionaryMatchFeedback` as a concatenation of three
parts, each of at most one element. -/
theorem dictionary_suggestions_eq (m : Match) (isSoleMatch : Bool) :
    (getDictionaryMatchFeedback m isSoleMatch).Suggestions =
      (if MatchString StartUpper m.Token = true then
          ["Capitalization doesn't help very much."]
        else if MatchString AllUpper m.Token = true then
          ["All-uppercase is almost as easy to guess as all-lowercase."]
        else []) ++
      (if m.Reversed = true ∧ len m.Token ≥ 4 then
          ["Reversed words aren't much harder to guess."]
        else []) ++
      (if m.L33t = true then
          ["Predictable substitutions like '@' instead of 'a' don't help very much."]
        else []) := by
  cases h1 : MatchString StartUpper m.Token <;> cases h2 : MatchString AllUpper m.Token <;>
    cases h3 : m.Reversed <;> cases h4 : m.L33t <;>
    by_cases h5 : 4 ≤ len m.Token <;>
    simp [getDictionaryMatchFeedback, h1, h2, h3, h4, h5]

/-- C11: the suggestion list of `getDictionaryMatchFeedback` is the concatenation, in
this order, of at most one capitalization suggestion, of the reversed suggestion
present exactly when the match is reversed and `len` of the token is at least 4, and
of the leet suggestion present exactly when the match is leet.  It depends on the
token and the two flags only; a reversed match on the token `Reversed` gets the
capitalization and then the reversed suggestion, and no all-uppercase suggestion. -/
theorem dictionary_suggestions_assembly (m : Match) (isSoleMatch : Bool) :
    (getDictionaryMatchFeedback m isSoleMatch).Suggestions =
      (if MatchString StartUpper m.Token = true then
          ["Capitalization doesn't help very much."]
        else if MatchString AllUpper m.Token = true then
          ["All-uppercase is almost as easy to guess as all-lowercase."]
        else []) ++
      (if m.Reversed = true ∧ len m.Token ≥ 4 then
          ["Reversed words aren't much harder to guess."]
        else []) ++
      (if m.L33t = true then
          ["Predictable substitutions like '@' instead of 'a' don't help very much."]
        else []) ∧
    (∀ (other : Match) (otherSole : Bool),
      other.Token = m.Token → other.Reversed = m.Reversed → other.L33t = m.L33t →
      (getDictionaryMatchFeedback other otherSole).Suggestions =
        (getDictionaryMatchFeedback m isSoleMatch).Suggestions) ∧
    (m.Token = "Reversed" → m.Reversed = true →
      (getDictionaryMatchFeedback m isSoleMatch).Suggestions =
        ["Capitalization doesn't help very much.",
          "Reversed words aren't much harder to guess."] ++
        (if m.L33t = true then
          ["Predictable substitutions like '@' instead of 'a' don't help very much."]
        else []) ∧
      "All-uppercase is almost as easy to guess as all-lowercase." ∉
        (getDictionaryMatchFeedback m isSoleMatch).Suggestions) := by
  refine ⟨dictionary_suggestions_eq m isSoleMatch, ?_, ?_⟩
  · intro other otherSole htok hrev hleet
    rw [dictionary_suggestions_eq, dictionary_suggestions_eq, htok, hrev, hleet]
  · intro htok hrev
    have hstart : MatchString StartUpper m.Token = true := by rw [htok]; decide
    have hlen : len m.Token ≥ 4 := by rw [htok]; decide
    rw [dictionary_suggestions_eq]
    cases h4 : m.L33t <;> simp [hstart, hrev, hlen]

/-- Witness of C11: the reversed dictionary match on the token `Reversed`, compared
with the same token and flags under another dictionary, rank and sole-match flag. -/
theorem dictionary_suggestions_assembly_witness :
    (getDictionaryMatchFeedback
        { reversedMatch with DictionaryName := "passwords", Rank := 900, Guesses := 20000 }
        false).Suggestions =
      (getDictionaryMatchFeedback reversedMatch true).Suggestions ∧
    (getDictionaryMatchFeedback reversedMatch true).Suggestions =
      ["Capitalization doesn't help very much.",
        "Reversed words aren't much harder to guess."] ++
      (if reversedMatch.L33t = true then
        ["Predictable substitutions like '@' instead of 'a' don't help very much."]
      else []) ∧
    "All-uppercase is almost as easy to guess as all-lowercase." ∉
      (getDictionaryMatchFeedback reversedMatch true).Suggestions :=
  ⟨(dictionary_suggestions_assembly reversedMatch true).2.1 _ false rfl rfl rfl,
    (dictionary_suggestions_assembly reversedMatch true).2.2 rfl rfl⟩

/-! ## The pattern classifier -/

/-- On a non-empty sequence and a score of at most 2, `GetFeedback` is the classifier
result on the selected match with the generic suggestion appended. -/
theorem GetFeedback_of_selected (score : Int) (sequence : List Match) (selected : Match)
    (hscore : score ≤ 2) (hsel : selectedMatch sequence = some selected) :
    GetFeedback score sequence =
      { Warning := (getMatchFeedback selected (decide (sequence.length = 1))).Warning,
        Suggestions :=
          (getMatchFeedback selected (decide (sequence.length = 1))).Suggestions ++
            ["Add another word or two. Uncommon words are better."] } := by
  cases sequence with
  | nil => simp [selectedMatch] at hsel
  | cons first rest =>
    have hs : ¬ score > 2 := not_lt.mpr hscore
    simp only [selectedMatch, Option.some.injEq] at hsel
    simp [GetFeedback, hs, hsel]

/-- C12: for a spatial match `getMatchFeedback` gives the one suggestion "Use a longer
keyboard pattern with more turns." and the warning "Straight rows..." when `Turns` is
1, "Short keyboard patterns..." otherwise, whatever `isSoleMatch` is; hence when a
spatial match is the selected match of a sequence and the score is at most 2,
`GetFeedback` gives exactly this suggestion followed by the generic one. -/
theorem spatial_feedback (m : Match) (isSoleMatch : Bool) (hpat : m.Pattern = "spatial") :
    (getMatchFeedback m isSoleMatch).Suggestions =
      ["Use a longer keyboard pattern with more turns."] ∧
    (m.Turns = 1 →
      (getMatchFeedback m isSoleMatch).Warning = "Straight rows of keys are easy to guess.") ∧
    (m.Turns ≠ 1 →
      (getMatchFeedback m isSoleMatch).Warning =
        "Short keyboard patterns are easy to guess.") ∧
    (∀ (score : Int) (sequence : List Match), score ≤ 2 →
      selectedMatch sequence = some m →
      (GetFeedback score sequence).Suggestions =
        ["Use a longer keyboard pattern with more turns.",
          "Add another word or two. Uncommon words are better."]) := by
  have hsugg : ∀ b : Bool, (getMatchFeedback m b).Suggestions =
      ["Use a longer keyboard pattern with more turns."] := by
    intro b
    simp [getMatchFeedback, hpat]
  refine ⟨hsugg isSoleMatch, ?_, ?_, ?_⟩
  · intro ht
    simp [getMatchFeedback, hpat, ht]
  · intro ht
    simp [getMatchFeedback, hpat, ht]
  · intro score sequence hscore hsel
    rw [GetFeedback_of_selected score sequence m hscore hsel]
    simp [hsugg]

/-- Witness of C12: the spatial match `qwerty` with three turns, the longer of two
matches, at score 1. -/
theorem spatial_feedback_witness :
    (getMatchFeedback spatialMatch false).Suggestions =
      ["Use a longer keyboard pattern with more turns."] ∧
    (getMatchFeedback spatialMatch false).Warning =
      "Short keyboard patterns are easy to guess." ∧
    (GetFeedback 1 [abcMatch, spatialMatch]).Suggestions =
      ["Use a longer keyboard pattern with more turns.",
        "Add another word or two. Uncommon words are better."] :=
  ⟨(spatial_feedback spatialMatch false rfl).1,
    (spatial_feedback spatialMatch false rfl).2.2.1 (by decide),
    (spatial_feedback spatialMatch false rfl).2.2.2 1 [abcMatch, spatialMatch] (by decide)
      rfl⟩

/-- C13: for a repeat match `getMatchFeedback` gives the one suggestion "Avoid repeated
words and characters." and the warning of "aaa" when `RepeatCount` is 1, the warning
of "abcabcabc" otherwise, whatever `isSoleMatch` is. -/
theorem repeat_feedback (m : Match) (isSoleMatch : Bool) (hpat : m.Pattern = "repeat") :
    (getMatchFeedback m isSoleMatch).Suggestions = ["Avoid repeated words and characters."] ∧
    (m.RepeatCount = 1 →
      (getMatchFeedback m isSoleMatch).Warning = "Repeats like \"aaa\" are easy to guess.") ∧
    (m.RepeatCount ≠ 1 →
      (getMatchFeedback m isSoleMatch).Warning =
        "Repeats like \"abcabcabc\" are only slightly harder to guess than \"abc\".") := by
  refine ⟨?_, ?_, ?_⟩
  · simp [getMatchFeedback, hpat]
  · intro hc
    simp [getMatchFeedback, hpat, hc]
  · intro hc
    simp [getMatchFeedback, hpat, hc]

/-- Witness of C13: the repeat match `aaa` with repeat count 1. -/
theorem repeat_feedback_witness :
    (getMatchFeedback repeatMatch true).Suggestions =
      ["Avoid repeated words and characters."] ∧
    (getMatchFeedback repeatMatch true).Warning = "Repeats like \"aaa\" are easy to guess." :=
  ⟨(repeat_feedback repeatMatch true rfl).1,
    (repeat_feedback repeatMatch true rfl).2.1 rfl⟩

/-- C14: a sequence match, a date match and a regex match named `recent_year` each
get the fixed row of their kind, whatever `isSoleMatch` and the other fields are. -/
theorem fixed_rows_feedback (m : Match) (isSoleMatch : Bool) :
    (m.Pattern = "sequence" →
      getMatchFeedback m isSoleMatch =
        { Warning := "Sequences like \"abc\" or \"6543\" are easy to guess.",
          Suggestions := ["Avoid sequences."] }) ∧
    (m.Pattern = "date" →
      getMatchFeedback m isSoleMatch =
        { Warning := "Dates are often easy to guess.",
          Suggestions := ["Avoid dates and years that are associated with you."] }) ∧
    (m.Pattern = "regex" → m.RegexName = "recent_year" →
      getMatchFeedback m isSoleMatch =
        { Warning := "Recent years are easy to guess.",
          Suggestions := ["Avoid recent years.",
            "Avoid years that are associated with you."] }) := by
  refine ⟨?_, ?_, ?_⟩
  · intro hpat
    simp [getMatchFeedback, hpat]
  · intro hpat
    simp [getMatchFeedback, hpat]
  · intro hpat hname
    simp [getMatchFeedback, hpat, hname]

/-- Witness of C14: one match of each of the three kinds. -/
theorem fixed_rows_feedback_witness :
    getMatchFeedback sequenceMatch true =
        { Warning := "Sequences like \"abc\" or \"6543\" are easy to guess.",
          Suggestions := ["Avoid sequences."] } ∧
    getMatchFeedback dateMatch false =
        { Warning := "Dates are often easy to guess.",
          Suggestions := ["Avoid dates and years that are associated with you."] } ∧
    getMatchFeedback recentYearMatch true =
        { Warning := "Recent years are easy to guess.",
          Suggestions := ["Avoid recent years.",
            "Avoid years that are associated with you."] } :=
  ⟨(fixed_rows_feedback sequenceMatch true).1 rfl,
    (fixed_rows_feedback dateMatch false).2.1 rfl,
    (fixed_rows_feedback recentYearMatch true).2.2 rfl rfl⟩

/-- C15: for a score of at most 2 and a non-empty sequence whose selected match has a
pattern kind outside the six kinds of the table, or is a regex match with a name other
than `recent_year`, `GetFeedback` returns the empty warning and the generic suggestion
alone; a regex match with another name does not get the row of the dates.  (A
sequence with a selected match is non-empty.) -/
theorem GetFeedback_unclassified (score : Int) (sequence : List Match) (selected : Match)
    (hscore : score ≤ 2) (hsel : selectedMatch sequence = some selected)
    (hkind : (selected.Pattern ≠ "dictionary" ∧ selected.Pattern ≠ "spatial" ∧
        selected.Pattern ≠ "repeat" ∧ selected.Pattern ≠ "sequence" ∧
        selected.Pattern ≠ "regex" ∧ selected.Pattern ≠ "date") ∨
      (selected.Pattern = "regex" ∧ selected.RegexName ≠ "recent_year")) :
    GetFeedback score sequence =
      { Warning := "",
        Suggestions := ["Add another word or two. Uncommon words are better."] } := by
  rw [GetFeedback_of_selected score sequence selected hscore hsel]
  rcases hkind with ⟨h1, h2, h3, h4, h5, h6⟩ | ⟨hpat, hname⟩
  · simp [getMatchFeedback, h1, h2, h3, h4, h5, h6, Feedback.zero]
  · simp [getMatchFeedback, hpat, hname, Feedback.zero]

/-- Witness of C15: a regex match with another name, and a match of unknown kind. -/
theorem GetFeedback_unclassified_witness :
    GetFeedback 2 [otherRegexMatch] =
      { Warning := "",
        Suggestions := ["Add another word or two. Uncommon words are better."] } ∧
    GetFeedback 0 [bruteforceMatch, abcMatch] =
      { Warning := "",
        Suggestions := ["Add another word or two. Uncommon words are better."] } :=
  ⟨GetFeedback_unclassified 2 [otherRegexMatch] otherRegexMatch (by decide) rfl
      (Or.inr (by decide)),
    GetFeedback_unclassified 0 [bruteforceMatch, abcMatch] bruteforceMatch
      (by decide) rfl (Or.inl (by decide))⟩

/-! ## Only the selected match counts -/

/-- C16: for a score of at most 2, two non-empty sequences with the same selected
match that are both of length 1 or both of length at least 2 get the same feedback;
nothing else of the other matches is read. -/
theorem GetFeedback_selected_only (score : Int) (s1 s2 : List Match)
    (hscore : score ≤ 2) (h1 : s1 ≠ []) (h2 : s2 ≠ [])
    (hsel : selectedMatch s1 = selectedMatch s2)
    (hlen : (s1.length = 1 ∧ s2.length = 1) ∨ (2 ≤ s1.length ∧ 2 ≤ s2.length)) :
    GetFeedback score s1 = GetFeedback score s2 := by
  cases s1 with
  | nil => exact absurd rfl h1
  | cons a as =>
    cases s2 with
    | nil => exact absurd rfl h2
    | cons b bs =>
      have hsole : decide ((a :: as).length = 1) = decide ((b :: bs).length = 1) := by
        rcases hlen with ⟨l1, l2⟩ | ⟨l1, l2⟩
        · simp [l1, l2]
        · have n1 : ¬ (a :: as).length = 1 := by omega
          have n2 : ¬ (b :: bs).length = 1 := by omega
          simp only [n1, n2]
      rw [GetFeedback_of_selected score (a :: as) (longestLoop a as) hscore rfl,
        GetFeedback_of_selected score (b :: bs) (longestLoop b bs) hscore rfl, hsole]
      have heq : longestLoop a as = longestLoop b bs := by
        simpa [selectedMatch] using hsel
      rw [heq]

/-- Witness of C16: the spatial match `qwerty` next to a dictionary match and next to
two other matches. -/
theorem GetFeedback_selected_only_witness :
    GetFeedback 1 [abcMatch, spatialMatch] =
      GetFeedback 1 [spatialMatch, repeatMatch, recentYearMatch] :=
  GetFeedback_selected_only 1 [abcMatch, spatialMatch]
    [spatialMatch, repeatMatch, recentYearMatch] (by decide) (by simp) (by simp) rfl
    (Or.inr ⟨by decide, by decide⟩)

/-! ## Totality -/

/-- On a valid pointer `getDictionaryMatchFeedback` returns the value computed on the
record. -/
theorem getDictionaryMatchFeedbackPtr_some (m : Match) (isSoleMatch : Bool) :
    getDictionaryMatchFeedbackPtr (some m) isSoleMatch =
      Except.ok (getDictionaryMatchFeedback m isSoleMatch) := by
  rfl

/-- On a valid pointer `getMatchFeedback` returns the value computed on the record. -/
theorem getMatchFeedbackPtr_some (m : Match) (isSoleMatch : Bool) :
    getMatchFeedbackPtr (some m) isSoleMatch =
      Except.ok (getMatchFeedback m isSoleMatch) := by
  by_cases hd : m.Pattern = "dictionary"
  · simp [getMatchFeedbackPtr, deref, hd, getDictionaryMatchFeedbackPtr, getMatchFeedback]
  · simp [getMatchFeedbackPtr, deref, hd]

/-- The only failure of `getMatchFeedback` is the read through a nil pointer. -/
theorem getMatchFeedbackPtr_fault (p : MatchPtr) (isSoleMatch : Bool) (e : Fault)
    (h : getMatchFeedbackPtr p isSoleMatch = Except.error e) :
    e = Fault.nilDereference ∧ p = none := by
  cases p with
  | none =>
    simp only [getMatchFeedbackPtr, deref, Except.error.injEq] at h
    exact ⟨h.symm, rfl⟩
  | some m =>
    rw [getMatchFeedbackPtr_some] at h
    exact Except.noConfusion h

/-- On valid pointers the loop selects the pointer to the record that the loop on
records selects. -/
theorem longestLoopPtr_records (rest : List Match) :
    ∀ acc : Match,
      longestLoopPtr (some acc) (rest.map some) = Except.ok (some (longestLoop acc rest)) := by
  induction rest with
  | nil => intro acc; rfl
  | cons m rest ih =>
    intro acc
    by_cases hgt : len m.Token > len acc.Token
    · simp [longestLoopPtr, longestLoop, deref, hgt, ih]
    · simp [longestLoopPtr, longestLoop, deref, hgt, ih]

/-- The loop fails exactly when it scans a nil pointer, or scans anything with a nil
accumulator; the failure is the read through a nil pointer, and a result of the loop
is nil only when the accumulator is nil and nothing is scanned. -/
theorem longestLoopPtr_cases (rest : List MatchPtr) :
    ∀ acc : MatchPtr,
      (none ∉ acc :: rest → ∃ m, longestLoopPtr acc rest = Except.ok (some m)) ∧
      (none ∈ acc :: rest →
        longestLoopPtr acc rest = Except.error Fault.nilDereference ∨
          longestLoopPtr acc rest = Except.ok none) := by
  induction rest with
  | nil =>
    intro acc
    cases acc with
    | none => simp [longestLoopPtr]
    | some a => simp [longestLoopPtr]
  | cons p rest ih =>
    intro acc
    cases p with
    | none => simp [longestLoopPtr, deref]
    | some m =>
      cases acc with
      | none => simp [longestLoopPtr, deref]
      | some a =>
        by_cases hgt : len m.Token > len a.Token
        · have hstep : longestLoopPtr (some a) (some m :: rest) =
              longestLoopPtr (some m) rest := by
            simp [longestLoopPtr, deref, hgt]
          rw [hstep]
          obtain ⟨hok, hbad⟩ := ih (some m)
          constructor
          · intro hn
            apply hok
            simp only [List.mem_cons, not_or] at hn ⊢
            exact ⟨hn.2.1, hn.2.2⟩
          · intro hn
            apply hbad
            simp only [List.mem_cons] at hn ⊢
            rcases hn with h | h | h
            · exact absurd h (by simp)
            · exact Or.inl h
            · exact Or.inr h
        · have hstep : longestLoopPtr (some a) (some m :: rest) =
              longestLoopPtr (some a) rest := by
            simp [longestLoopPtr, deref, hgt]
          rw [hstep]
          obtain ⟨hok, hbad⟩ := ih (some a)
          constructor
          · intro hn
            apply hok
            simp only [List.mem_cons, not_or] at hn ⊢
            exact ⟨hn.1, hn.2.2⟩
          · intro hn
            apply hbad
            simp only [List.mem_cons] at hn ⊢
            rcases hn with h | h | h
            · exact Or.inl h
            · exact absurd h (by simp)
            · exact Or.inr h

/-- What a run of `GetFeedback` on pointers gives, by cases: a value on the empty
sequence and for a score above 2; otherwise a value when no pointer is nil and the
failure of a read through a nil pointer when one is. -/
theorem GetFeedbackPtr_cases (score : Int) (sequence : List MatchPtr) :
    ((score > 2 ∨ none ∉ sequence) → ∃ fb, GetFeedbackPtr score sequence = Except.ok fb) ∧
    ((score ≤ 2 ∧ none ∈ sequence) →
      GetFeedbackPtr score sequence = Except.error Fault.nilDereference) := by
  cases sequence with
  | nil =>
    refine ⟨fun _ => ⟨_, rfl⟩, ?_⟩
    rintro ⟨_, hn⟩
    simp at hn
  | cons first rest =>
    by_cases hs : score > 2
    · refine ⟨fun _ => ⟨Feedback.zero, by simp [GetFeedbackPtr, hs]⟩, ?_⟩
      rintro ⟨hle, _⟩
      omega
    · obtain ⟨hok, hbad⟩ := longestLoopPtr_cases rest first
      constructor
      · intro h
        have hn : none ∉ first :: rest := by
          rcases h with h | h
          · exact absurd h hs
          · exact h
        obtain ⟨m, hm⟩ := hok hn
        have hrun : GetFeedbackPtr score (first :: rest) =
            Except.ok
              { Warning := (getMatchFeedback m (decide ((first :: rest).length = 1))).Warning,
                Suggestions :=
                  (getMatchFeedback m (decide ((first :: rest).length = 1))).Suggestions ++
                    ["Add another word or two. Uncommon words are better."] } := by
          simp [GetFeedbackPtr, hs, indexZero, sliceFromOne, hm, getMatchFeedbackPtr_some]
        exact ⟨_, hrun⟩
      · rintro ⟨_, hn⟩
        rcases hbad hn with hm | hm
        · simp [GetFeedbackPtr, hs, indexZero, sliceFromOne, hm]
        · simp [GetFeedbackPtr, hs, indexZero, sliceFromOne, hm, getMatchFeedbackPtr, deref]

/-- C17: `GetFeedback` returns a `Feedback` without failing for every score and every
sequence of match records, that is, of pointers none of which is nil: the run on
pointers, in which an index, a slice expression and a field read can fail, returns the
value of `GetFeedback`.  The accesses `sequence[0]` and `sequence[1:]`, which fail on
the empty sequence, never fail in a run, being reached on non-empty sequences only;
and `getMatchFeedback` and `getDictionaryMatchFeedback` return a value on every match.
The one failure a run has is the read through a nil pointer, which is no match record:
it occurs exactly for a score of at most 2 and a sequence that holds a nil pointer. -/
theorem GetFeedback_total (score : Int) (records : List Match) :
    GetFeedbackPtr score (records.map some) = Except.ok (GetFeedback score records) ∧
    (∀ sequence : List MatchPtr,
      GetFeedbackPtr score sequence ≠ Except.error Fault.indexOutOfRange ∧
      GetFeedbackPtr score sequence ≠ Except.error Fault.sliceBoundsOutOfRange) ∧
    (indexZero [] = Except.error Fault.indexOutOfRange ∧
      sliceFromOne [] = Except.error Fault.sliceBoundsOutOfRange) ∧
    (∀ (m : Match) (isSoleMatch : Bool),
      getMatchFeedbackPtr (some m) isSoleMatch = Except.ok (getMatchFeedback m isSoleMatch) ∧
      getDictionaryMatchFeedbackPtr (some m) isSoleMatch =
        Except.ok (getDictionaryMatchFeedback m isSoleMatch)) ∧
    (∀ sequence : List MatchPtr,
      GetFeedbackPtr score sequence = Except.error Fault.nilDereference ↔
        (score ≤ 2 ∧ none ∈ sequence)) := by
  have hfault : ∀ (sequence : List MatchPtr) (e : Fault),
      GetFeedbackPtr score sequence = Except.error e → e = Fault.nilDereference := by
    intro sequence e he
    obtain ⟨hok, hbad⟩ := GetFeedbackPtr_cases score sequence
    by_cases hc : score ≤ 2 ∧ none ∈ sequence
    · rw [hbad hc] at he
      exact (Except.error.inj he).symm
    · have : score > 2 ∨ none ∉ sequence := by
        by_cases hs : score > 2
        · exact Or.inl hs
        · exact Or.inr (fun hn => hc ⟨not_lt.mp hs, hn⟩)
      obtain ⟨fb, hfb⟩ := hok this
      rw [hfb] at he
      exact Except.noConfusion he
  refine ⟨?_, ?_, ⟨rfl, rfl⟩, ?_, ?_⟩
  · cases records with
    | nil => rfl
    | cons first rest =>
      by_cases hs : score > 2
      · simp [GetFeedbackPtr, GetFeedback, hs]
      · have hl : (List.map some rest).length = rest.length := List.length_map rest some
        have hsole : decide ((List.map some rest).length + 1 = 1) =
            decide (rest.length + 1 = 1) :=
          decide_eq_decide.mpr (by rw [hl])
        simp [GetFeedbackPtr, GetFeedback, hs, indexZero, sliceFromOne,
          longestLoopPtr_records, getMatchFeedbackPtr_some, hsole]
  · intro sequence
    constructor
    · intro h
      exact Fault.noConfusion (hfault sequence _ h)
    · intro h
      exact Fault.noConfusion (hfault sequence _ h)
  · intro m b
    exact ⟨getMatchFeedbackPtr_some m b, getDictionaryMatchFeedbackPtr_some m b⟩
  · intro sequence
    obtain ⟨hok, hbad⟩ := GetFeedbackPtr_cases score sequence
    constructor
    · intro h
      by_contra hc
      have : score > 2 ∨ none ∉ sequence := by
        by_cases hs : score > 2
        · exact Or.inl hs
        · exact Or.inr (fun hn => hc ⟨not_lt.mp hs, hn⟩)
      obtain ⟨fb, hfb⟩ := hok this
      rw [hfb] at h
      exact Except.noConfusion h
    · exact hbad
/-- Witness of C17: a run on two match records returns the value of `GetFeedback`,
and a run at score 1 on a sequence that holds a nil pointer fails on the read through
it. -/
theorem GetFeedback_total_witness :
    GetFeedbackPtr 1 ([abcMatch, spatialMatch].map some) =
      Except.ok (GetFeedback 1 [abcMatch, spatialMatch]) ∧
    GetFeedbackPtr 1 [some abcMatch, none] = Except.error Fault.nilDereference :=
  ⟨(GetFeedback_total 1 [abcMatch, spatialMatch]).1,
    ((GetFeedback_total 1 [abcMatch, spatialMatch]).2.2.2.2 [some abcMatch, none]).mpr
      ⟨by decide, by simp⟩⟩

/-! ## The Start-Upper pattern against the scan of the design notes -/

/-- C18, at the token `ABc`: the scan of the design notes accepts it (first character
uppercase, the following `c` is not), the pattern `StartUpper` does not (the following
`B` is uppercase). -/
theorem startUpperScan_disagrees :
    MatchString StartUpper "ABc" = false ∧ startUpperScan "ABc" = true := by
  decide

/-- C18, amended: the pattern `StartUpper` accepts a token exactly when the scan of
the design notes accepts it and no character after the first is an uppercase letter;
so every token the pattern accepts is accepted by the scan, and the two checks agree
on the tokens that have no uppercase letter after the first character. -/
theorem StartUpper_iff_scan_and_tail (s : String) :
    MatchString StartUpper s = true ↔
      (startUpperScan s = true ∧ ∀ x ∈ s.data.tail, isUpperAZ x = false) := by
  rw [MatchString_StartUpper]
  unfold StartUpperShape startUpperScan
  cases hs : s.data with
  | nil => simp
  | cons c rest =>
    constructor
    · rintro ⟨c', rest', heq, hc, hne, hall⟩
      obtain ⟨rfl, rfl⟩ := List.cons.inj heq
      refine ⟨?_, hall⟩
      cases rest with
      | nil => exact absurd rfl hne
      | cons d ds =>
        have hd : isUpperAZ d = false := hall d (List.mem_cons_self d ds)
        simp [hc, hd]
    · rintro ⟨hscan, hall⟩
      simp only [Bool.and_eq_true, List.any_eq_true] at hscan
      obtain ⟨hc, x, hx, _⟩ := hscan
      exact ⟨c, rest, rfl, hc, List.ne_nil_of_mem hx, hall⟩

/-! ## The number of suggestions -/

/-- No branch of the classifier emits the generic suggestion, and the classifier
gives at most three suggestions, three only for a dictionary match with one
capitalization suggestion, the reversed suggestion and the leet suggestion. -/
theorem getMatchFeedback_suggestions_bound (m : Match) (isSoleMatch : Bool) :
    "Add another word or two. Uncommon words are better." ∉
      (getMatchFeedback m isSoleMatch).Suggestions ∧
    (getMatchFeedback m isSoleMatch).Suggestions.length ≤ 3 ∧
    ((getMatchFeedback m isSoleMatch).Suggestions.length = 3 →
      m.Pattern = "dictionary" ∧
      (MatchString StartUpper m.Token = true ∨ MatchString AllUpper m.Token = true) ∧
      (m.Reversed = true ∧ len m.Token ≥ 4) ∧ m.L33t = true) := by
  by_cases hd : m.Pattern = "dictionary"
  · have hfb : getMatchFeedback m isSoleMatch = getDictionaryMatchFeedback m isSoleMatch := by
      simp [getMatchFeedback, hd]
    rw [hfb, dictionary_suggestions_eq]
    cases h1 : MatchString StartUpper m.Token <;> cases h2 : MatchString AllUpper m.Token <;>
      cases h3 : m.Reversed <;> cases h4 : m.L33t <;>
      by_cases h5 : 4 ≤ len m.Token <;>
      simp [hd, h5]
  · by_cases h2 : m.Pattern = "spatial"
    · simp [getMatchFeedback, h2]
    · by_cases h3 : m.Pattern = "repeat"
      · simp [getMatchFeedback, h3]
      · by_cases h4 : m.Pattern = "sequence"
        · simp [getMatchFeedback, h4]
        · by_cases h5 : m.Pattern = "regex"
          · by_cases h6 : m.RegexName = "recent_year"
            · simp [getMatchFeedback, h5, h6]
            · simp [getMatchFeedback, h5, h6, Feedback.zero]
          · by_cases h7 : m.Pattern = "date"
            · simp [getMatchFeedback, h7]
            · simp [getMatchFeedback, hd, h2, h3, h4, h5, h7, Feedback.zero]

/-- C19: for a score of at most 2 and a non-empty sequence, `GetFeedback` returns
between 1 and 4 suggestions; the generic suggestion occurs exactly once, as the last
element, no branch of the classifier emitting it; and 4 suggestions are returned only
when the selected match is a dictionary match with a capitalization suggestion, the
reversed suggestion and the leet suggestion. -/
theorem GetFeedback_suggestion_count (score : Int) (sequence : List Match)
    (hscore : score ≤ 2) (hne : sequence ≠ []) :
    ∃ selected, selectedMatch sequence = some selected ∧
      1 ≤ (GetFeedback score sequence).Suggestions.length ∧
      (GetFeedback score sequence).Suggestions.length ≤ 4 ∧
      (GetFeedback score sequence).Suggestions.count
        "Add another word or two. Uncommon words are better." = 1 ∧
      (GetFeedback score sequence).Suggestions.getLast? =
        some "Add another word or two. Uncommon words are better." ∧
      (∀ (m : Match) (isSoleMatch : Bool),
        "Add another word or two. Uncommon words are better." ∉
          (getMatchFeedback m isSoleMatch).Suggestions) ∧
      ((GetFeedback score sequence).Suggestions.length = 4 →
        selected.Pattern = "dictionary" ∧
        (MatchString StartUpper selected.Token = true ∨
          MatchString AllUpper selected.Token = true) ∧
        (selected.Reversed = true ∧ len selected.Token ≥ 4) ∧ selected.L33t = true) := by
  cases sequence with
  | nil => exact absurd rfl hne
  | cons first rest =>
    obtain ⟨hnot, hle, hthree⟩ :=
      getMatchFeedback_suggestions_bound (longestLoop first rest)
        (decide ((first :: rest).length = 1))
    refine ⟨longestLoop first rest, rfl, ?_⟩
    rw [GetFeedback_of_selected score (first :: rest) (longestLoop first rest) hscore rfl]
    refine ⟨?_, ?_, ?_, ?_, ?_, ?_⟩
    · simp
    · simp only [List.length_append, List.length_singleton]
      omega
    · rw [List.count_append, List.count_eq_zero.mpr hnot]
      simp
    · simp
    · intro m b
      exact (getMatchFeedback_suggestions_bound m b).1
    · intro h4
      apply hthree
      simp only [List.length_append, List.length_singleton] at h4
      omega

/-- Witness of C19: the reversed leet match `P@ssw0rd`, which reaches 4 suggestions. -/
theorem GetFeedback_suggestion_count_witness :
    ∃ selected, selectedMatch [leetMatch] = some selected ∧
      1 ≤ (GetFeedback 0 [leetMatch]).Suggestions.length ∧
      (GetFeedback 0 [leetMatch]).Suggestions.length ≤ 4 ∧
      (GetFeedback 0 [leetMatch]).Suggestions.count
        "Add another word or two. Uncommon words are better." = 1 ∧
      (GetFeedback 0 [leetMatch]).Suggestions.getLast? =
        some "Add another word or two. Uncommon words are better." ∧
      (∀ (m : Match) (isSoleMatch : Bool),
        "Add another word or two. Uncommon words are better." ∉
          (getMatchFeedback m isSoleMatch).Suggestions) ∧
      ((GetFeedback 0 [leetMatch]).Suggestions.length = 4 →
        selected.Pattern = "dictionary" ∧
        (MatchString StartUpper selected.Token = true ∨
          MatchString AllUpper selected.Token = true) ∧
        (selected.Reversed = true ∧ len selected.Token ≥ 4) ∧ selected.L33t = true) :=
  GetFeedback_suggestion_count 0 [leetMatch] (by decide) (by simp)

/-! ## Lengths are byte counts -/

/-- C20: the length of a token is the number of bytes of its UTF-8 encoding, in the
reversed-word threshold and in the choice of the longest match: a reversed dictionary
match whose token has at least 4 bytes gets "Reversed words aren't much harder to
guess." (so does the token `éé`, of two characters), and of two matches the one with
more bytes is selected, in either order (so is `éé` against `abc`, of three
characters). -/
theorem length_in_bytes (m : Match) (isSoleMatch : Bool) :
    (m.Reversed = true → m.Token.utf8ByteSize ≥ 4 →
      "Reversed words aren't much harder to guess." ∈
        (getDictionaryMatchFeedback m isSoleMatch).Suggestions) ∧
    (∀ other : Match, other.Token.utf8ByteSize < m.Token.utf8ByteSize →
      selectedMatch [other, m] = some m ∧ selectedMatch [m, other] = some m) ∧
    (accentMatch.Token.length = 2 ∧ accentMatch.Token.utf8ByteSize = 4 ∧
      abcMatch.Token.length = 3 ∧ abcMatch.Token.utf8ByteSize = 3 ∧
      "Reversed words aren't much harder to guess." ∈
        (getDictionaryMatchFeedback accentMatch isSoleMatch).Suggestions ∧
      selectedMatch [abcMatch, accentMatch] = some accentMatch ∧
      selectedMatch [accentMatch, abcMatch] = some accentMatch) := by
  refine ⟨?_, ?_, ?_⟩
  · intro hrev hlen
    have h4 : len m.Token ≥ 4 := hlen
    rw [dictionary_suggestions_eq]
    simp [hrev, h4]
  · intro other hlt
    have h1 : len m.Token > len other.Token := hlt
    have h2 : ¬ len other.Token > len m.Token := by
      have : len other.Token < len m.Token := hlt
      omega
    constructor
    · simp [selectedMatch, longestLoop, h1]
    · simp [selectedMatch, longestLoop, h2]
  · refine ⟨by decide, by decide, by decide, by decide, ?_, rfl, rfl⟩
    cases isSoleMatch <;> decide

/-- Witness of C20: the reversed match `éé` against the match `abc`. -/
theorem length_in_bytes_witness :
    "Reversed words aren't much harder to guess." ∈
        (getDictionaryMatchFeedback accentMatch true).Suggestions ∧
    selectedMatch [abcMatch, accentMatch] = some accentMatch ∧
    selectedMatch [accentMatch, abcMatch] = some accentMatch :=
  ⟨(length_in_bytes accentMatch true).1 rfl (by decide),
    (length_in_bytes accentMatch true).2.1 abcMatch (by decide)⟩

end Zxcvbn
